import Mathlib

set_option maxHeartbeats 1000000

namespace RheaPromise

/-!
Shallow embedding of the lifecycle coordination logic of the rhea-promise
library: the AwaitableSender delivery-disposition correlation table from
src/dist/lib/awaitableSender.js, the guarded open/close/createSession and
createReceiver operations of Connection (src/unnamed/part_001, connection.js)
and Session (session.js, concatenated in src/dist/lib/awaitableSender.js),
and the event re-emission policy of src/dist/lib/util/utils.js (emitEvent).
-/

/-- The errors with which a pending awaitable send is rejected, from
errorDefinitions: SendOperationFailedError carries the disposition or error
event name and the remote error, OperationTimeoutError is produced by the
deadline timer, and the abort error by the cancellation path. -/
inductive SendErr
  | sendOperationFailed (eventName : String) (remoteError : Option String)
  | operationTimeout
  | abortError
deriving DecidableEq

/-- A recorded settlement attempt on the promise returned by
AwaitableSender.send: a call of resolve with the delivery, or a call of
reject with an error. -/
inductive MSettlement
  | resolvedDelivery
  | rejectedSend (e : SendErr)
deriving DecidableEq

/-- The observable state of one AwaitableSender together with its in-flight
sends: the key set of deliveryDispositionMap (delivery ids with a stored
pending-promise entry), the ids whose deadline timer is still armed (the
timer handle stored in the map entry, until clearTimeout runs or the timer
fires), the ids whose abort listener is still registered on the abort
signal, and the list of settlement calls made so far, in order. -/
structure SenderState where
  deliveryDispositionMap : List Nat
  armedTimers : List Nat
  abortListeners : List Nat
  settlements : List (Nat × MSettlement)
deriving DecidableEq

/-- Delivery ids that have received at least one settlement call. -/
def settledIds (s : SenderState) : List Nat :=
  s.settlements.map Prod.fst

/-- The effect of settling through the wrapper stored in the map entry
(awaitableSender.js lines 163-173): the surrounding handler has already
called clearTimeout on the entry timer and deleted the map entry, and the
stored resolve/reject additionally removes the abort listener. -/
def settleEntry (id : Nat) (x : MSettlement) (s : SenderState) : SenderState :=
  { deliveryDispositionMap := s.deliveryDispositionMap.erase id
    armedTimers := s.armedTimers.erase id
    abortListeners := s.abortListeners.erase id
    settlements := s.settlements ++ [(id, x)] }

/-- The effect of the deadline timer firing (awaitableSender.js lines
137-144): the callback deletes the map entry and rejects with
OperationTimeoutError through the raw promise reject, so the abort listener
is NOT removed; the timer itself is no longer armed because it has fired. -/
def settleEntryOnTimeout (id : Nat) (s : SenderState) : SenderState :=
  { deliveryDispositionMap := s.deliveryDispositionMap.erase id
    armedTimers := s.armedTimers.erase id
    abortListeners := s.abortListeners
    settlements := s.settlements ++ [(id, MSettlement.rejectedSend SendErr.operationTimeout)] }

/-- Handler for the accepted event (awaitableSender.js lines 31-41): if the
delivery id is in the map, clear the timer, delete the entry and resolve
with the delivery; otherwise do nothing. -/
def onSendSuccess (id : Nat) (s : SenderState) : SenderState :=
  if id ∈ s.deliveryDispositionMap then
    settleEntry id MSettlement.resolvedDelivery s
  else s

/-- Handler for the rejected, released and modified events and for the bulk
error drain (awaitableSender.js lines 50-63): if the id is in the map, clear
the timer, delete the entry and reject with SendOperationFailedError
carrying the event name and the remote error; otherwise do nothing. -/
def onSendFailure (eventName : String) (id : Nat) (error : Option String)
    (s : SenderState) : SenderState :=
  if id ∈ s.deliveryDispositionMap then
    settleEntry id (MSettlement.rejectedSend (SendErr.sendOperationFailed eventName error)) s
  else s

/-- Handler installed for sender_error on the link and session_error on the
session (awaitableSender.js lines 72-76): iterate every id currently in the
map and apply onSendFailure to it. -/
def onError (eventName : String) (error : Option String) (s : SenderState) : SenderState :=
  s.deliveryDispositionMap.foldl (fun st id => onSendFailure eventName id error st) s

/-- The deadline timer callback (awaitableSender.js lines 137-144), which
can only run while the timer is still armed: delete the map entry and
reject with OperationTimeoutError via the raw promise reject. -/
def onSendTimeout (id : Nat) (s : SenderState) : SenderState :=
  if id ∈ s.armedTimers then settleEntryOnTimeout id s else s

/-- The abort listener (awaitableSender.js lines 145-156): if the id is in
the map, clear the timer, delete the entry and reject with the abort error
through the stored wrapper; otherwise do nothing. -/
def onAbort (id : Nat) (s : SenderState) : SenderState :=
  if id ∈ s.deliveryDispositionMap then
    settleEntry id (MSettlement.rejectedSend SendErr.abortError) s
  else s

/-- Events that can reach an AwaitableSender after sends have been issued. -/
inductive SenderEvent
  | accepted (id : Nat)
  | dispositionFailed (eventName : String) (id : Nat) (remoteError : Option String)
  | timerFired (id : Nat)
  | abortSignalFired (id : Nat)
  | linkOrSessionError (eventName : String) (error : Option String)
deriving DecidableEq

/-- Event dispatch: each event runs the handler the constructor installs for
it; a timer can only fire while armed, and an abort event only reaches the
per-send listener while that listener is registered. -/
def stepSender (s : SenderState) (e : SenderEvent) : SenderState :=
  match e with
  | SenderEvent.accepted id => onSendSuccess id s
  | SenderEvent.dispositionFailed eventName id err => onSendFailure eventName id err s
  | SenderEvent.timerFired id => onSendTimeout id s
  | SenderEvent.abortSignalFired id =>
      if id ∈ s.abortListeners then onAbort id s else s
  | SenderEvent.linkOrSessionError eventName err => onError eventName err s

/-- Process a sequence of events in order. -/
def runSender (s : SenderState) (es : List SenderEvent) : SenderState :=
  es.foldl stepSender s

/-- State right after a batch of sends has been issued (awaitableSender.js
lines 133-176): every issued delivery id has a map entry and an armed
timer, and the ids whose call supplied an abort signal have an abort
listener registered; nothing has settled. -/
def initSender (ids abortIds : List Nat) : SenderState :=
  { deliveryDispositionMap := ids
    armedTimers := ids
    abortListeners := abortIds
    settlements := [] }

/-- The sender state after issuing the given sends and processing the given
events. -/
def finalSender (ids abortIds : List Nat) (es : List SenderEvent) : SenderState :=
  runSender (initSender ids abortIds) es

/-- Options relevant to the handler installation in the AwaitableSender
constructor (awaitableSender.js lines 98-107): whether the caller supplied
onError and onSessionError handlers. -/
structure AwaitableSenderCtorOptions where
  onError : Bool
  onSessionError : Bool
deriving DecidableEq

/-- The constructor installs its own sender_error drain handler exactly when
the caller did not supply options.onError (awaitableSender.js line 98). -/
def senderErrorDrainInstalled (o : AwaitableSenderCtorOptions) : Bool :=
  !o.onError

/-- The constructor installs its own session_error drain handler exactly
when the caller did not supply options.onSessionError (awaitableSender.js
line 103). -/
def sessionErrorDrainInstalled (o : AwaitableSenderCtorOptions) : Bool :=
  !o.onSessionError

/-- The sender default send timeout computed in the constructor
(awaitableSender.js line 24): options.sendTimeoutInSeconds when truthy,
else 20. -/
def awaitableSenderDefaultTimeout (optionsSendTimeoutInSeconds : Option Int) : Int :=
  match optionsSendTimeoutInSeconds with
  | none => 20
  | some v => if v = 0 then 20 else v

/-- Per-call options of AwaitableSender.send. -/
structure AwaitableSendOptions where
  timeoutInSeconds : Option Int
  abortSignal : Option Bool
deriving DecidableEq

/-- Synchronous outcomes recorded when an operation settles during its own
synchronous call segment. -/
inductive ImmediateOutcome
  | resolvedSelf
  | resolvedVoid
  | rejectedAbortError
  | rejectedConfigError
  | rejectedInsufficientCredit
deriving DecidableEq

/-- What the synchronous part of AwaitableSender.send does
(awaitableSender.js lines 123-187). -/
structure SendStartRecord where
  settledNow : Option ImmediateOutcome
  protocolSendIssued : Bool
  timerStarted : Bool
  timerDurationSeconds : Option Int
  mapEntryInserted : Bool
  abortListenerAdded : Bool
deriving DecidableEq

/-- Translation of the body of AwaitableSender.send (awaitableSender.js
lines 123-187): an already aborted signal rejects before anything else; if
sendable, the deadline uses the per-call timeoutInSeconds when it is a
positive number and the sender default otherwise, the timer is started, the
protocol send issued, the map entry inserted and the abort listener added
when a signal was supplied; otherwise reject with InsufficientCreditError. -/
def awaitableSenderSend (sendTimeoutInSeconds : Int) (sendableNow : Bool)
    (options : Option AwaitableSendOptions) : SendStartRecord :=
  let abortSignal : Option Bool :=
    match options with
    | some o => o.abortSignal
    | none => none
  let timeoutInSeconds : Option Int :=
    match options with
    | some o => o.timeoutInSeconds
    | none => none
  let aborted : Bool :=
    match abortSignal with
    | some b => b
    | none => false
  if aborted then
    { settledNow := some ImmediateOutcome.rejectedAbortError
      protocolSendIssued := false
      timerStarted := false
      timerDurationSeconds := none
      mapEntryInserted := false
      abortListenerAdded := false }
  else if sendableNow then
    let d : Int :=
      match timeoutInSeconds with
      | some t => if 0 < t then t else sendTimeoutInSeconds
      | none => sendTimeoutInSeconds
    { settledNow := none
      protocolSendIssued := true
      timerStarted := true
      timerDurationSeconds := some d
      mapEntryInserted := true
      abortListenerAdded := abortSignal.isSome }
  else
    { settledNow := some ImmediateOutcome.rejectedInsufficientCredit
      protocolSendIssued := false
      timerStarted := false
      timerDurationSeconds := none
      mapEntryInserted := false
      abortListenerAdded := false }

/-- The spec sentence for the send deadline, stated as written there: a
timer for max of the per-call timeout and the default sendTimeoutInSeconds.
Kept separate so it can be compared with the translation of the source. -/
def specMaxTimerDuration (perCallTimeout defaultTimeout : Int) : Int :=
  max perCallTimeout defaultTimeout

/-- Effects of the synchronous call segment of a guarded lifecycle
operation on Connection or Session. -/
structure GuardStartRecord where
  settledNow : Option ImmediateOutcome
  protocolActionIssued : Bool
  abortCleanupCloseIssued : Bool
  completionListenersAdded : Nat
  completionListenersRemaining : Nat
  connDisconnectedListenersAdded : Nat
  timerStarted : Bool
  timerPending : Bool
  abortListenerRemaining : Bool
deriving DecidableEq

/-- A record with nothing done yet. -/
def emptyGuardRecord : GuardStartRecord :=
  { settledNow := none
    protocolActionIssued := false
    abortCleanupCloseIssued := false
    completionListenersAdded := 0
    completionListenersRemaining := 0
    connDisconnectedListenersAdded := 0
    timerStarted := false
    timerPending := false
    abortListenerRemaining := false }

/-- Register completion listeners on the underlying rhea objects; the
second argument counts how many of them listen for the disconnected event
on the rhea connection. -/
def addCompletionListeners (total onConnDisconnected : Nat) (r : GuardStartRecord) :
    GuardStartRecord :=
  { r with
    completionListenersAdded := r.completionListenersAdded + total
    completionListenersRemaining := r.completionListenersRemaining + total
    connDisconnectedListenersAdded := r.connDisconnectedListenersAdded + onConnDisconnected }

/-- Start the operation timeout timer (setTimeout with
operationTimeoutInSeconds). -/
def startWaitTimer (r : GuardStartRecord) : GuardStartRecord :=
  { r with timerStarted := true, timerPending := true }

/-- Issue the protocol-level action: connect, close, begin or attach. -/
def issueProtocolAction (r : GuardStartRecord) : GuardStartRecord :=
  { r with protocolActionIssued := true }

/-- Register the abort listener on the supplied signal. -/
def addAbortListener (r : GuardStartRecord) : GuardStartRecord :=
  { r with abortListenerRemaining := true }

/-- The removeListeners helper shared by every guarded operation:
clearTimeout on the wait timer, removeListener for each completion
listener, and removeEventListener on the abort signal. -/
def removeListenersAndClearTimer (r : GuardStartRecord) : GuardStartRecord :=
  { r with
    completionListenersRemaining := 0
    timerPending := false
    abortListenerRemaining := false }

/-- Record an immediate synchronous settlement of the returned promise. -/
def settleNow (o : ImmediateOutcome) (r : GuardStartRecord) : GuardStartRecord :=
  { r with settledNow := some o }

/-- Record the extra protocol close issued inside some onAbort handlers. -/
def issueAbortCleanupClose (r : GuardStartRecord) : GuardStartRecord :=
  { r with abortCleanupCloseIssued := true }

/-- Translation of Connection.open (connection.js lines 110-173): when not
open, register once-listeners for connectionOpen, connectionClose and
disconnected (the last on the rhea connection), start the wait timer, call
connect, and only then inspect the abort signal: if it is already aborted
run onAbort, which removes the listeners, closes the connection and rejects
with the abort error, and otherwise add the abort listener; when already
open, resolve immediately with this. -/
def connectionOpen (isOpen : Bool) (abortSignal : Option Bool) : GuardStartRecord :=
  if isOpen = false then
    let r := addCompletionListeners 3 1 emptyGuardRecord
    let r := startWaitTimer r
    let r := issueProtocolAction r
    match abortSignal with
    | none => r
    | some aborted =>
        if aborted then
          settleNow ImmediateOutcome.rejectedAbortError
            (issueAbortCleanupClose (removeListenersAndClearTimer r))
        else addAbortListener r
  else settleNow ImmediateOutcome.resolvedSelf emptyGuardRecord

/-- Translation of Connection.close (connection.js lines 185-254): when
open, register once-listeners for connectionClose, connectionError and
disconnected, start the wait timer, call close, then inspect the abort
signal, running onAbort (remove listeners, reject) if already aborted;
when not open, resolve immediately. -/
def connectionClose (isOpen : Bool) (abortSignal : Option Bool) : GuardStartRecord :=
  if isOpen then
    let r := addCompletionListeners 3 1 emptyGuardRecord
    let r := startWaitTimer r
    let r := issueProtocolAction r
    match abortSignal with
    | none => r
    | some aborted =>
        if aborted then
          settleNow ImmediateOutcome.rejectedAbortError (removeListenersAndClearTimer r)
        else addAbortListener r
  else settleNow ImmediateOutcome.resolvedVoid emptyGuardRecord

/-- Translation of Connection.createSession (connection.js lines 320-388):
register once-listeners for sessionOpen, sessionClose and disconnected (the
last on the rhea connection), start the wait timer, call begin, then
inspect the abort signal, running onAbort (remove listeners, close the rhea
session, reject) if already aborted. -/
def connectionCreateSession (abortSignal : Option Bool) : GuardStartRecord :=
  let r := addCompletionListeners 3 1 emptyGuardRecord
  let r := startWaitTimer r
  let r := issueProtocolAction r
  match abortSignal with
  | none => r
  | some aborted =>
      if aborted then
        settleNow ImmediateOutcome.rejectedAbortError
          (issueAbortCleanupClose (removeListenersAndClearTimer r))
      else addAbortListener r

/-- Translation of Session.close (session.js lines 315-385): when open,
register once-listeners for sessionClose, sessionError and disconnected
(the last on the rhea connection), start the wait timer, call close, then
inspect the abort signal, running onAbort (remove listeners, reject) if
already aborted; when not open, resolve immediately. -/
def sessionClose (isOpen : Bool) (abortSignal : Option Bool) : GuardStartRecord :=
  if isOpen then
    let r := addCompletionListeners 3 1 emptyGuardRecord
    let r := startWaitTimer r
    let r := issueProtocolAction r
    match abortSignal with
    | none => r
    | some aborted =>
        if aborted then
          settleNow ImmediateOutcome.rejectedAbortError (removeListenersAndClearTimer r)
        else addAbortListener r
  else settleNow ImmediateOutcome.resolvedVoid emptyGuardRecord

/-- The options of Session.createReceiver that the configuration guard and
the abort handling read. -/
structure ReceiverOptions where
  onMessage : Bool
  onError : Bool
  credit_window : Option Int
  abortSignal : Option Bool
deriving DecidableEq

/-- The part of Session.createReceiver after the configuration guard
(session.js lines 436-518): call attach_receiver, register once-listeners
for receiverOpen and receiverClose and an on-listener for disconnected on
the rhea connection, start the wait timer, then inspect the abort signal,
running onAbort (remove listeners, close the rhea receiver, reject) if
already aborted. -/
def sessionCreateReceiverRest (abortSignal : Option Bool) : GuardStartRecord :=
  let r := issueProtocolAction emptyGuardRecord
  let r := addCompletionListeners 3 1 r
  let r := startWaitTimer r
  match abortSignal with
  | none => r
  | some aborted =>
      if aborted then
        settleNow ImmediateOutcome.rejectedAbortError
          (issueAbortCleanupClose (removeListenersAndClearTimer r))
      else addAbortListener r

/-- Translation of Session.createReceiver (session.js lines 403-518): when
options supply exactly one of onMessage and onError and credit_window is
not 0, reject synchronously with the configuration error and do nothing
else; otherwise proceed with the attach. -/
def sessionCreateReceiver (opts : Option ReceiverOptions) : GuardStartRecord :=
  match opts with
  | some o =>
      if (o.onMessage && !o.onError) || (o.onError && !o.onMessage) then
        if o.credit_window ≠ some 0 then
          settleNow ImmediateOutcome.rejectedConfigError emptyGuardRecord
        else sessionCreateReceiverRest o.abortSignal
      else sessionCreateReceiverRest o.abortSignal
  | none => sessionCreateReceiverRest none

/-- Translation of Session._createSender (session.js lines 555-664), the
shared body of createSender and createAwaitableSender: call attach_sender,
register once-listeners for sendable and senderClose and an on-listener for
disconnected on the rhea connection, start the wait timer, then inspect the
abort signal, running onAbort (remove listeners, close the rhea sender,
reject) if already aborted. -/
def sessionCreateSender (abortSignal : Option Bool) : GuardStartRecord :=
  let r := issueProtocolAction emptyGuardRecord
  let r := addCompletionListeners 3 1 r
  let r := startWaitTimer r
  match abortSignal with
  | none => r
  | some aborted =>
      if aborted then
        settleNow ImmediateOutcome.rejectedAbortError
          (issueAbortCleanupClose (removeListenersAndClearTimer r))
      else addAbortListener r

/-- Number of disconnected listeners registered on the underlying rhea
connection by a batch of concurrently pending Session.close operations:
each pending close adds its own once-listener (session.js line 368), on top
of whatever was registered before. -/
def pendingDisconnectedListeners (base : Nat) : Nat → Nat
  | 0 => base
  | k + 1 =>
      pendingDisconnectedListeners base k +
        (sessionClose true none).connDisconnectedListenersAdded

/-- Events that can reach a pending Connection.close or Session.close
operation. -/
inductive CloseOpEvent
  | closeEvt
  | errorEvt (err : Option String)
  | disconnectedEvt
  | abortEvt
  | timeoutEvt
deriving DecidableEq

/-- Settlement calls made on the promise of a close operation. -/
inductive CloseSettle
  | resolvedClose
  | rejectedCloseError (err : Option String)
  | rejectedCloseAbort
  | rejectedCloseTimeout
deriving DecidableEq

/-- State of a pending close operation: whether its listeners (and timer
and abort listener) are still installed, and the settlement calls made. -/
structure CloseOpState where
  listenersActive : Bool
  settlements : List CloseSettle
deriving DecidableEq

/-- Translation of the handlers of Connection.close (connection.js lines
195-233): every handler starts with removeListeners; onClose resolves,
onError rejects with the connection error, onDisconnected only logs and
settles nothing, onAbort rejects with the abort error, and the wait timer
rejects with the operation timeout error. Once the listeners are removed no
handler can run again. -/
def stepConnectionClose (s : CloseOpState) (e : CloseOpEvent) : CloseOpState :=
  if s.listenersActive then
    match e with
    | CloseOpEvent.closeEvt =>
        { listenersActive := false
          settlements := s.settlements ++ [CloseSettle.resolvedClose] }
    | CloseOpEvent.errorEvt err =>
        { listenersActive := false
          settlements := s.settlements ++ [CloseSettle.rejectedCloseError err] }
    | CloseOpEvent.disconnectedEvt =>
        { listenersActive := false
          settlements := s.settlements }
    | CloseOpEvent.abortEvt =>
        { listenersActive := false
          settlements := s.settlements ++ [CloseSettle.rejectedCloseAbort] }
    | CloseOpEvent.timeoutEvt =>
        { listenersActive := false
          settlements := s.settlements ++ [CloseSettle.rejectedCloseTimeout] }
  else s

/-- Translation of the handlers of Session.close (session.js lines
326-364), which mirror those of Connection.close: in particular
onDisconnected (lines 346-352) removes the listeners, logs the error and
settles nothing. -/
def stepSessionClose (s : CloseOpState) (e : CloseOpEvent) : CloseOpState :=
  if s.listenersActive then
    match e with
    | CloseOpEvent.closeEvt =>
        { listenersActive := false
          settlements := s.settlements ++ [CloseSettle.resolvedClose] }
    | CloseOpEvent.errorEvt err =>
        { listenersActive := false
          settlements := s.settlements ++ [CloseSettle.rejectedCloseError err] }
    | CloseOpEvent.disconnectedEvt =>
        { listenersActive := false
          settlements := s.settlements }
    | CloseOpEvent.abortEvt =>
        { listenersActive := false
          settlements := s.settlements ++ [CloseSettle.rejectedCloseAbort] }
    | CloseOpEvent.timeoutEvt =>
        { listenersActive := false
          settlements := s.settlements ++ [CloseSettle.rejectedCloseTimeout] }
  else s

/-- Process a sequence of events against a pending Connection.close. -/
def runConnectionClose (s : CloseOpState) (es : List CloseOpEvent) : CloseOpState :=
  es.foldl stepConnectionClose s

/-- Process a sequence of events against a pending Session.close. -/
def runSessionClose (s : CloseOpState) (es : List CloseOpEvent) : CloseOpState :=
  es.foldl stepSessionClose s

/-- A close operation that has installed its listeners and settled
nothing yet. -/
def closeOpStart : CloseOpState :=
  { listenersActive := true, settlements := [] }

/-- Whether the character list hay starts with the character list needle. -/
def startsWithSeq : List Char → List Char → Bool
  | _, [] => true
  | [], _ :: _ => false
  | a :: as, b :: bs => if a = b then startsWithSeq as bs else false

/-- Whether needle occurs as a contiguous subsequence of hay; this is the
content of the indexOf test used by emitEvent. -/
def containsSeq : List Char → List Char → Bool
  | [], needle => needle.isEmpty
  | a :: as, needle => startsWithSeq (a :: as) needle || containsSeq as needle

/-- The test params.eventName.indexOf of the string error being distinct
from -1, from utils.js line 133. -/
def nameContainsError (eventName : String) : Bool :=
  containsSeq eventName.toList "error".toList

/-- Invariant tying a reachable sender state to the batch of issued sends:
the map keys are distinct; the armed timers are exactly the map keys; an id
is in the map exactly when it was issued and has not settled; every id
settles at most once; and the abort listener of an id is still registered
exactly when the call supplied a signal and the id is unsettled or settled
only through the timeout path, which rejects via the raw promise reject and
therefore never removes the listener. -/
structure SenderInv (ids abortIds : List Nat) (s : SenderState) : Prop where
  mapNodup : s.deliveryDispositionMap.Nodup
  timersEq : s.armedTimers = s.deliveryDispositionMap
  mapMem : ∀ i, i ∈ s.deliveryDispositionMap ↔ (i ∈ ids ∧ i ∉ settledIds s)
  settledNodup : (settledIds s).Nodup
  abortMem : ∀ i, i ∈ s.abortListeners ↔
    (i ∈ abortIds ∧
      ∀ x, (i, x) ∈ s.settlements → x = MSettlement.rejectedSend SendErr.operationTimeout)
  abortNodup : s.abortListeners.Nodup

/-- How emitEvent schedules the re-emission. -/
inductive EmitMode
  | immediate
  | deferredOneTick
deriving DecidableEq

/-- Translation of emitEvent (utils.js lines 126-145): when the event name
contains the string error and the emitter actionInitiated counter is
greater than zero, the re-emission is deferred with setTimeout to the next
tick; otherwise emit runs synchronously. -/
def emitEventSchedule (eventName : String) (actionInitiated : Int) : EmitMode :=
  if nameContainsError eventName = true ∧ 0 < actionInitiated then
    EmitMode.deferredOneTick
  else EmitMode.immediate

theorem settledIds_settleEntry_eq (id : Nat) (x : MSettlement) (s : SenderState) :
    settledIds (settleEntry id x s) = settledIds s ++ [id] := by
  simp [settledIds, settleEntry]

theorem mem_settledIds_settleEntry (id : Nat) (x : MSettlement) (s : SenderState) (i : Nat) :
    i ∈ settledIds (settleEntry id x s) ↔ (i ∈ settledIds s ∨ i = id) := by
  simp [settledIds_settleEntry_eq]

theorem mem_settlements_settleEntry (id : Nat) (x : MSettlement) (s : SenderState)
    (p : Nat × MSettlement) :
    p ∈ (settleEntry id x s).settlements ↔ (p ∈ s.settlements ∨ p = (id, x)) := by
  simp [settleEntry]

theorem settledIds_settleEntryOnTimeout_eq (id : Nat) (s : SenderState) :
    settledIds (settleEntryOnTimeout id s) = settledIds s ++ [id] := by
  simp [settledIds, settleEntryOnTimeout]

theorem mem_settledIds_settleEntryOnTimeout (id : Nat) (s : SenderState) (i : Nat) :
    i ∈ settledIds (settleEntryOnTimeout id s) ↔ (i ∈ settledIds s ∨ i = id) := by
  simp [settledIds_settleEntryOnTimeout_eq]

theorem mem_settlements_settleEntryOnTimeout (id : Nat) (s : SenderState)
    (p : Nat × MSettlement) :
    p ∈ (settleEntryOnTimeout id s).settlements ↔
      (p ∈ s.settlements ∨ p = (id, MSettlement.rejectedSend SendErr.operationTimeout)) := by
  simp [settleEntryOnTimeout]

theorem settleEntry_inv {ids abortIds : List Nat} {s : SenderState} {id : Nat} {x : MSettlement}
    (h : SenderInv ids abortIds s) (hid : id ∈ s.deliveryDispositionMap)
    (hx : x ≠ MSettlement.rejectedSend SendErr.operationTimeout) :
    SenderInv ids abortIds (settleEntry id x s) := by
  obtain ⟨hnd, hta, hmem, hsn, habm, habn⟩ := h
  obtain ⟨hidids, hidns⟩ := (hmem id).mp hid
  refine ⟨hnd.erase id, ?_, ?_, ?_, ?_, habn.erase id⟩
  · show s.armedTimers.erase id = s.deliveryDispositionMap.erase id
    rw [hta]
  · intro i
    show i ∈ s.deliveryDispositionMap.erase id ↔ _
    rw [hnd.mem_erase_iff, hmem i, mem_settledIds_settleEntry]
    tauto
  · rw [settledIds_settleEntry_eq, List.nodup_append]
    refine ⟨hsn, List.nodup_singleton id, ?_⟩
    intro a ha hb
    rw [List.mem_singleton] at hb
    subst hb
    exact hidns ha
  · intro i
    show i ∈ s.abortListeners.erase id ↔ _
    rw [habn.mem_erase_iff, habm i]
    constructor
    · rintro ⟨hne, hiatt, hold⟩
      refine ⟨hiatt, ?_⟩
      intro y hy
      rcases (mem_settlements_settleEntry id x s (i, y)).mp hy with h1 | h1
      · exact hold y h1
      · exact absurd (congrArg Prod.fst h1) hne
    · rintro ⟨hiatt, hnew⟩
      have hne : i ≠ id := by
        intro he
        subst he
        exact hx (hnew x ((mem_settlements_settleEntry i x s (i, x)).mpr (Or.inr rfl)))
      exact ⟨hne, hiatt, fun y hy =>
        hnew y ((mem_settlements_settleEntry id x s (i, y)).mpr (Or.inl hy))⟩

theorem settleEntryOnTimeout_inv {ids abortIds : List Nat} {s : SenderState} {id : Nat}
    (h : SenderInv ids abortIds s) (hid : id ∈ s.armedTimers) :
    SenderInv ids abortIds (settleEntryOnTimeout id s) := by
  obtain ⟨hnd, hta, hmem, hsn, habm, habn⟩ := h
  rw [hta] at hid
  obtain ⟨hidids, hidns⟩ := (hmem id).mp hid
  refine ⟨hnd.erase id, ?_, ?_, ?_, ?_, habn⟩
  · show s.armedTimers.erase id = s.deliveryDispositionMap.erase id
    rw [hta]
  · intro i
    show i ∈ s.deliveryDispositionMap.erase id ↔ _
    rw [hnd.mem_erase_iff, hmem i, mem_settledIds_settleEntryOnTimeout]
    tauto
  · rw [settledIds_settleEntryOnTimeout_eq, List.nodup_append]
    refine ⟨hsn, List.nodup_singleton id, ?_⟩
    intro a ha hb
    rw [List.mem_singleton] at hb
    subst hb
    exact hidns ha
  · intro i
    show i ∈ s.abortListeners ↔ _
    rw [habm i]
    constructor
    · rintro ⟨hiatt, hold⟩
      refine ⟨hiatt, fun y hy => ?_⟩
      rcases (mem_settlements_settleEntryOnTimeout id s (i, y)).mp hy with h1 | h1
      · exact hold y h1
      · exact congrArg Prod.snd h1
    · rintro ⟨hiatt, hnew⟩
      exact ⟨hiatt, fun y hy =>
        hnew y ((mem_settlements_settleEntryOnTimeout id s (i, y)).mpr (Or.inl hy))⟩

theorem onSendSuccess_inv {ids abortIds : List Nat} {s : SenderState} (id : Nat)
    (h : SenderInv ids abortIds s) : SenderInv ids abortIds (onSendSuccess id s) := by
  unfold onSendSuccess
  by_cases hid : id ∈ s.deliveryDispositionMap
  · rw [if_pos hid]
    exact settleEntry_inv h hid (by decide)
  · rw [if_neg hid]
    exact h

theorem onSendFailure_inv {ids abortIds : List Nat} {s : SenderState} (eventName : String)
    (id : Nat) (error : Option String) (h : SenderInv ids abortIds s) :
    SenderInv ids abortIds (onSendFailure eventName id error s) := by
  unfold onSendFailure
  by_cases hid : id ∈ s.deliveryDispositionMap
  · rw [if_pos hid]
    exact settleEntry_inv h hid (by simp)
  · rw [if_neg hid]
    exact h

theorem onAbort_inv {ids abortIds : List Nat} {s : SenderState} (id : Nat)
    (h : SenderInv ids abortIds s) : SenderInv ids abortIds (onAbort id s) := by
  unfold onAbort
  by_cases hid : id ∈ s.deliveryDispositionMap
  · rw [if_pos hid]
    exact settleEntry_inv h hid (by decide)
  · rw [if_neg hid]
    exact h

theorem onSendTimeout_inv {ids abortIds : List Nat} {s : SenderState} (id : Nat)
    (h : SenderInv ids abortIds s) : SenderInv ids abortIds (onSendTimeout id s) := by
  unfold onSendTimeout
  by_cases hid : id ∈ s.armedTimers
  · rw [if_pos hid]
    exact settleEntryOnTimeout_inv h hid
  · rw [if_neg hid]
    exact h

theorem foldl_onSendFailure_inv {ids abortIds : List Nat} (eventName : String)
    (error : Option String) :
    ∀ (L : List Nat) (s : SenderState), SenderInv ids abortIds s →
      SenderInv ids abortIds
        (L.foldl (fun st i => onSendFailure eventName i error st) s) := by
  intro L
  induction L with
  | nil => intro s h; simpa using h
  | cons a L ih =>
      intro s h
      rw [List.foldl_cons]
      exact ih _ (onSendFailure_inv eventName a error h)

theorem onError_inv {ids abortIds : List Nat} {s : SenderState} (eventName : String)
    (error : Option String) (h : SenderInv ids abortIds s) :
    SenderInv ids abortIds (onError eventName error s) := by
  unfold onError
  exact foldl_onSendFailure_inv eventName error s.deliveryDispositionMap s h

theorem stepSender_inv {ids abortIds : List Nat} {s : SenderState} (e : SenderEvent)
    (h : SenderInv ids abortIds s) : SenderInv ids abortIds (stepSender s e) := by
  cases e with
  | accepted id => exact onSendSuccess_inv id h
  | dispositionFailed eventName id err => exact onSendFailure_inv eventName id err h
  | timerFired id => exact onSendTimeout_inv id h
  | abortSignalFired id =>
      show SenderInv ids abortIds (if id ∈ s.abortListeners then onAbort id s else s)
      by_cases hab : id ∈ s.abortListeners
      · rw [if_pos hab]
        exact onAbort_inv id h
      · rw [if_neg hab]
        exact h
  | linkOrSessionError eventName err => exact onError_inv eventName err h

theorem runSender_inv {ids abortIds : List Nat} :
    ∀ (es : List SenderEvent) (s : SenderState), SenderInv ids abortIds s →
      SenderInv ids abortIds (runSender s es) := by
  intro es
  induction es with
  | nil => intro s h; simpa [runSender] using h
  | cons e es ih =>
      intro s h
      show SenderInv ids abortIds (runSender (stepSender s e) es)
      exact ih _ (stepSender_inv e h)

theorem initSender_inv {ids abortIds : List Nat} (hids : ids.Nodup)
    (habort : abortIds.Nodup) : SenderInv ids abortIds (initSender ids abortIds) := by
  refine ⟨hids, rfl, ?_, ?_, ?_, habort⟩
  · intro i
    simp [initSender, settledIds]
  · simp [initSender, settledIds]
  · intro i
    simp [initSender]

theorem onSendFailure_map_sub (eventName : String) (id : Nat) (error : Option String)
    (s : SenderState) (i : Nat) :
    i ∈ (onSendFailure eventName id error s).deliveryDispositionMap →
      i ∈ s.deliveryDispositionMap := by
  unfold onSendFailure
  by_cases hid : id ∈ s.deliveryDispositionMap
  · rw [if_pos hid]
    exact fun h => List.mem_of_mem_erase h
  · rw [if_neg hid]
    exact fun h => h

theorem onSendFailure_mapNodup (eventName : String) (id : Nat) (error : Option String)
    (s : SenderState) (h : s.deliveryDispositionMap.Nodup) :
    (onSendFailure eventName id error s).deliveryDispositionMap.Nodup := by
  unfold onSendFailure
  by_cases hid : id ∈ s.deliveryDispositionMap
  · rw [if_pos hid]
    exact h.erase id
  · rw [if_neg hid]
    exact h

theorem foldl_onSendFailure_map_sub (eventName : String) (error : Option String) :
    ∀ (L : List Nat) (s : SenderState) (i : Nat),
      i ∈ ((L.foldl (fun st j => onSendFailure eventName j error st) s)).deliveryDispositionMap →
        i ∈ s.deliveryDispositionMap := by
  intro L
  induction L with
  | nil => intro s i h; simpa using h
  | cons a L ih =>
      intro s i h
      rw [List.foldl_cons] at h
      exact onSendFailure_map_sub eventName a error s i (ih _ i h)

theorem foldl_onSendFailure_not_mem (eventName : String) (error : Option String) :
    ∀ (L : List Nat) (s : SenderState), s.deliveryDispositionMap.Nodup →
      ∀ i ∈ L,
        i ∉ ((L.foldl (fun st j => onSendFailure eventName j error st) s)).deliveryDispositionMap := by
  intro L
  induction L with
  | nil => intro s _ i hi; cases hi
  | cons a L ih =>
      intro s hnd i hi
      rw [List.foldl_cons]
      rcases List.mem_cons.mp hi with rfl | hi2
      · intro hmem
        have h1 : i ∈ (onSendFailure eventName i error s).deliveryDispositionMap :=
          foldl_onSendFailure_map_sub eventName error L _ i hmem
        revert h1
        unfold onSendFailure
        by_cases hid : i ∈ s.deliveryDispositionMap
        · rw [if_pos hid]
          intro h1
          exact absurd ((hnd.mem_erase_iff).mp h1).1 (by simp)
        · rw [if_neg hid]
          exact hid
      · exact ih _ (onSendFailure_mapNodup eventName a error s hnd) i hi2

theorem onSendFailure_settlements_mono (eventName : String) (id : Nat)
    (error : Option String) (s : SenderState) (p : Nat × MSettlement)
    (h : p ∈ s.settlements) : p ∈ (onSendFailure eventName id error s).settlements := by
  unfold onSendFailure
  by_cases hid : id ∈ s.deliveryDispositionMap
  · rw [if_pos hid]
    exact (mem_settlements_settleEntry id _ s p).mpr (Or.inl h)
  · rw [if_neg hid]
    exact h

theorem foldl_onSendFailure_settlements_mono (eventName : String) (error : Option String) :
    ∀ (L : List Nat) (s : SenderState) (p : Nat × MSettlement), p ∈ s.settlements →
      p ∈ ((L.foldl (fun st j => onSendFailure eventName j error st) s)).settlements := by
  intro L
  induction L with
  | nil => intro s p h; simpa using h
  | cons a L ih =>
      intro s p h
      rw [List.foldl_cons]
      exact ih _ p (onSendFailure_settlements_mono eventName a error s p h)

theorem foldl_onSendFailure_settles (eventName : String) (error : Option String) :
    ∀ (L : List Nat) (s : SenderState), L.Nodup →
      (∀ i ∈ L, i ∈ s.deliveryDispositionMap) →
      ∀ i ∈ L,
        (i, MSettlement.rejectedSend (SendErr.sendOperationFailed eventName error)) ∈
          ((L.foldl (fun st j => onSendFailure eventName j error st) s)).settlements := by
  intro L
  induction L with
  | nil => intro s _ _ i hi; cases hi
  | cons a L ih =>
      intro s hLnd hsub i hi
      obtain ⟨hna, hLnd2⟩ := List.nodup_cons.mp hLnd
      have ha : a ∈ s.deliveryDispositionMap := hsub a (List.mem_cons_self a L)
      have hs2 : onSendFailure eventName a error s =
          settleEntry a
            (MSettlement.rejectedSend (SendErr.sendOperationFailed eventName error)) s := by
        unfold onSendFailure
        rw [if_pos ha]
      rw [List.foldl_cons]
      rcases List.mem_cons.mp hi with rfl | hi2
      · apply foldl_onSendFailure_settlements_mono
        rw [hs2]
        exact (mem_settlements_settleEntry i _ s _).mpr (Or.inr rfl)
      · apply ih _ hLnd2 ?_ i hi2
        intro j hj
        have hjs : j ∈ s.deliveryDispositionMap := hsub j (List.mem_cons_of_mem a hj)
        have hja : j ≠ a := fun he => hna (he ▸ hj)
        rw [hs2]
        show j ∈ s.deliveryDispositionMap.erase a
        exact (List.mem_erase_of_ne hja).mpr hjs

/-- Claim C1, counterexample: a send issued with an abort signal whose
deadline timer fires settles exactly once with OperationTimeoutError and
its map entry is deleted, but the abort listener stays registered, because
the timer callback rejects through the raw promise reject instead of the
stored wrapper; so the claim that every settlement path removes the abort
listener is false on the code. -/
theorem send_timeout_retains_abort_listener :
    settledIds (finalSender [0] [0] [SenderEvent.timerFired 0]) = [0] ∧
    (finalSender [0] [0] [SenderEvent.timerFired 0]).settlements =
      [(0, MSettlement.rejectedSend SendErr.operationTimeout)] ∧
    (finalSender [0] [0] [SenderEvent.timerFired 0]).deliveryDispositionMap = [] ∧
    (finalSender [0] [0] [SenderEvent.timerFired 0]).abortListeners = [0] ∧
    (finalSender [0] [0] [SenderEvent.timerFired 0]).abortListeners ≠ [] := by
  decide

/-- Claim C1 (amended): for every batch of issued sends with distinct
delivery ids and any event sequence, each send settles at most once; an
unsettled send still has its map entry and armed timer; every settlement
path deletes the map entry and leaves no armed timer for the id; an abort
listener that is still registered belongs to a send that is unsettled or
was settled by the timeout path only (the disposition, abort and bulk error
paths remove it); every terminal event arriving while the id is still in
the map settles it; and a handler that finds no map entry for the id
changes nothing at all. -/
theorem send_settlement_paths_cleanup (ids abortIds : List Nat) (es : List SenderEvent)
    (hids : ids.Nodup) (habort : abortIds.Nodup) :
    (settledIds (finalSender ids abortIds es)).Nodup ∧
    (∀ i ∈ ids, i ∉ settledIds (finalSender ids abortIds es) →
      (i ∈ (finalSender ids abortIds es).deliveryDispositionMap ∧
        i ∈ (finalSender ids abortIds es).armedTimers)) ∧
    (∀ i ∈ settledIds (finalSender ids abortIds es),
      i ∉ (finalSender ids abortIds es).deliveryDispositionMap ∧
      i ∉ (finalSender ids abortIds es).armedTimers) ∧
    (∀ i ∈ (finalSender ids abortIds es).abortListeners,
      i ∈ abortIds ∧
      ∀ x, (i, x) ∈ (finalSender ids abortIds es).settlements →
        x = MSettlement.rejectedSend SendErr.operationTimeout) ∧
    (∀ i ∈ (finalSender ids abortIds es).deliveryDispositionMap,
      i ∈ settledIds (stepSender (finalSender ids abortIds es) (SenderEvent.accepted i)) ∧
      (∀ n err, i ∈ settledIds (stepSender (finalSender ids abortIds es)
        (SenderEvent.dispositionFailed n i err))) ∧
      i ∈ settledIds (stepSender (finalSender ids abortIds es) (SenderEvent.timerFired i)) ∧
      (i ∈ (finalSender ids abortIds es).abortListeners →
        i ∈ settledIds (stepSender (finalSender ids abortIds es)
          (SenderEvent.abortSignalFired i))) ∧
      (∀ n err, i ∈ settledIds (stepSender (finalSender ids abortIds es)
        (SenderEvent.linkOrSessionError n err)))) ∧
    (∀ (s : SenderState) (i : Nat), i ∉ s.deliveryDispositionMap → i ∉ s.armedTimers →
      (stepSender s (SenderEvent.accepted i) = s ∧
        (∀ n err, stepSender s (SenderEvent.dispositionFailed n i err) = s) ∧
        stepSender s (SenderEvent.timerFired i) = s ∧
        stepSender s (SenderEvent.abortSignalFired i) = s)) := by
  have hinv : SenderInv ids abortIds (finalSender ids abortIds es) :=
    runSender_inv es (initSender ids abortIds) (initSender_inv hids habort)
  refine ⟨hinv.settledNodup, ?_, ?_, ?_, ?_, ?_⟩
  · intro i hi hn
    have hm : i ∈ (finalSender ids abortIds es).deliveryDispositionMap :=
      (hinv.mapMem i).mpr ⟨hi, hn⟩
    exact ⟨hm, by rw [hinv.timersEq]; exact hm⟩
  · intro i hi
    have hm : i ∉ (finalSender ids abortIds es).deliveryDispositionMap :=
      fun hmem => ((hinv.mapMem i).mp hmem).2 hi
    exact ⟨hm, by rw [hinv.timersEq]; exact hm⟩
  · intro i hi
    exact (hinv.abortMem i).mp hi
  · intro i hi
    refine ⟨?_, ?_, ?_, ?_, ?_⟩
    · show i ∈ settledIds (onSendSuccess i (finalSender ids abortIds es))
      unfold onSendSuccess
      rw [if_pos hi, mem_settledIds_settleEntry]
      exact Or.inr rfl
    · intro n err
      show i ∈ settledIds (onSendFailure n i err (finalSender ids abortIds es))
      unfold onSendFailure
      rw [if_pos hi, mem_settledIds_settleEntry]
      exact Or.inr rfl
    · have hit : i ∈ (finalSender ids abortIds es).armedTimers := by
        rw [hinv.timersEq]; exact hi
      show i ∈ settledIds (onSendTimeout i (finalSender ids abortIds es))
      unfold onSendTimeout
      rw [if_pos hit, mem_settledIds_settleEntryOnTimeout]
      exact Or.inr rfl
    · intro hab
      show i ∈ settledIds (if i ∈ (finalSender ids abortIds es).abortListeners then
        onAbort i (finalSender ids abortIds es) else finalSender ids abortIds es)
      rw [if_pos hab]
      unfold onAbort
      rw [if_pos hi, mem_settledIds_settleEntry]
      exact Or.inr rfl
    · intro n err
      show i ∈ settledIds (onError n err (finalSender ids abortIds es))
      have hmem := foldl_onSendFailure_settles n err
        (finalSender ids abortIds es).deliveryDispositionMap
        (finalSender ids abortIds es) hinv.mapNodup (fun j hj => hj) i hi
      show i ∈ ((onError n err (finalSender ids abortIds es)).settlements.map Prod.fst)
      exact List.mem_map.mpr ⟨_, hmem, rfl⟩
  · intro s i h1 h2
    refine ⟨?_, ?_, ?_, ?_⟩
    · simp [stepSender, onSendSuccess, h1]
    · intro n err
      simp [stepSender, onSendFailure, h1]
    · simp [stepSender, onSendTimeout, h2]
    · simp [stepSender, onAbort, h1]

/-- Witness for the C1 theorem at a concrete batch and event sequence. -/
theorem send_settlement_paths_cleanup_witness :
    ([7] : List Nat).Nodup ∧ ([] : List Nat).Nodup ∧
    ((settledIds (finalSender [7] [] [SenderEvent.accepted 7])).Nodup ∧
    (∀ i ∈ ([7] : List Nat), i ∉ settledIds (finalSender [7] [] [SenderEvent.accepted 7]) →
      (i ∈ (finalSender [7] [] [SenderEvent.accepted 7]).deliveryDispositionMap ∧
        i ∈ (finalSender [7] [] [SenderEvent.accepted 7]).armedTimers)) ∧
    (∀ i ∈ settledIds (finalSender [7] [] [SenderEvent.accepted 7]),
      i ∉ (finalSender [7] [] [SenderEvent.accepted 7]).deliveryDispositionMap ∧
      i ∉ (finalSender [7] [] [SenderEvent.accepted 7]).armedTimers) ∧
    (∀ i ∈ (finalSender [7] [] [SenderEvent.accepted 7]).abortListeners,
      i ∈ ([] : List Nat) ∧
      ∀ x, (i, x) ∈ (finalSender [7] [] [SenderEvent.accepted 7]).settlements →
        x = MSettlement.rejectedSend SendErr.operationTimeout) ∧
    (∀ i ∈ (finalSender [7] [] [SenderEvent.accepted 7]).deliveryDispositionMap,
      i ∈ settledIds (stepSender (finalSender [7] [] [SenderEvent.accepted 7])
        (SenderEvent.accepted i)) ∧
      (∀ n err, i ∈ settledIds (stepSender (finalSender [7] [] [SenderEvent.accepted 7])
        (SenderEvent.dispositionFailed n i err))) ∧
      i ∈ settledIds (stepSender (finalSender [7] [] [SenderEvent.accepted 7])
        (SenderEvent.timerFired i)) ∧
      (i ∈ (finalSender [7] [] [SenderEvent.accepted 7]).abortListeners →
        i ∈ settledIds (stepSender (finalSender [7] [] [SenderEvent.accepted 7])
          (SenderEvent.abortSignalFired i))) ∧
      (∀ n err, i ∈ settledIds (stepSender (finalSender [7] [] [SenderEvent.accepted 7])
        (SenderEvent.linkOrSessionError n err)))) ∧
    (∀ (s : SenderState) (i : Nat), i ∉ s.deliveryDispositionMap → i ∉ s.armedTimers →
      (stepSender s (SenderEvent.accepted i) = s ∧
        (∀ n err, stepSender s (SenderEvent.dispositionFailed n i err) = s) ∧
        stepSender s (SenderEvent.timerFired i) = s ∧
        stepSender s (SenderEvent.abortSignalFired i) = s))) :=
  ⟨by decide, by decide,
    send_settlement_paths_cleanup [7] [] [SenderEvent.accepted 7] (by decide) (by decide)⟩

/-- Claim C2: for every batch of issued sends with distinct delivery ids
and any event sequence, an id has a map entry exactly when it was issued
and has not yet reached a terminal event, the armed timers are exactly the
map entries, and once every issued id has settled the map is empty and no
timer remains armed. -/
theorem deliveryDispositionMap_invariant (ids abortIds : List Nat) (es : List SenderEvent)
    (hids : ids.Nodup) (habort : abortIds.Nodup) :
    (∀ i, i ∈ (finalSender ids abortIds es).deliveryDispositionMap ↔
      (i ∈ ids ∧ i ∉ settledIds (finalSender ids abortIds es))) ∧
    (finalSender ids abortIds es).armedTimers =
      (finalSender ids abortIds es).deliveryDispositionMap ∧
    ((∀ i ∈ ids, i ∈ settledIds (finalSender ids abortIds es)) →
      (finalSender ids abortIds es).deliveryDispositionMap = [] ∧
      (finalSender ids abortIds es).armedTimers = []) := by
  have hinv : SenderInv ids abortIds (finalSender ids abortIds es) :=
    runSender_inv es (initSender ids abortIds) (initSender_inv hids habort)
  refine ⟨hinv.mapMem, hinv.timersEq, ?_⟩
  intro hall
  have hm : (finalSender ids abortIds es).deliveryDispositionMap = [] := by
    rw [List.eq_nil_iff_forall_not_mem]
    intro i hi
    exact ((hinv.mapMem i).mp hi).2 (hall i ((hinv.mapMem i).mp hi).1)
  exact ⟨hm, by rw [hinv.timersEq, hm]⟩

/-- Witness for the C2 theorem at a concrete batch and event sequence. -/
theorem deliveryDispositionMap_invariant_witness :
    ([0, 1] : List Nat).Nodup ∧ ([0] : List Nat).Nodup ∧
    ((∀ i, i ∈ (finalSender [0, 1] [0] [SenderEvent.accepted 0]).deliveryDispositionMap ↔
      (i ∈ ([0, 1] : List Nat) ∧
        i ∉ settledIds (finalSender [0, 1] [0] [SenderEvent.accepted 0]))) ∧
    (finalSender [0, 1] [0] [SenderEvent.accepted 0]).armedTimers =
      (finalSender [0, 1] [0] [SenderEvent.accepted 0]).deliveryDispositionMap ∧
    ((∀ i ∈ ([0, 1] : List Nat),
        i ∈ settledIds (finalSender [0, 1] [0] [SenderEvent.accepted 0])) →
      (finalSender [0, 1] [0] [SenderEvent.accepted 0]).deliveryDispositionMap = [] ∧
      (finalSender [0, 1] [0] [SenderEvent.accepted 0]).armedTimers = [])) :=
  ⟨by decide, by decide,
    deliveryDispositionMap_invariant [0, 1] [0] [SenderEvent.accepted 0]
      (by decide) (by decide)⟩

/-- Claim C4: a sender_error or session_error event drains the map: every
still-pending delivery id is rejected with a SendOperationFailedError
carrying that event name and error, the map is left empty and no timer
remains armed; the event dispatch of the automatic handler is exactly this
drain; and the automatic handler for each level is installed exactly when
the caller did not supply its own handler for that level. -/
theorem bulk_error_drain (ids abortIds : List Nat) (es : List SenderEvent)
    (eventName : String) (error : Option String)
    (hids : ids.Nodup) (habort : abortIds.Nodup) :
    (onError eventName error (finalSender ids abortIds es)).deliveryDispositionMap = [] ∧
    (onError eventName error (finalSender ids abortIds es)).armedTimers = [] ∧
    (∀ i ∈ (finalSender ids abortIds es).deliveryDispositionMap,
      (i, MSettlement.rejectedSend (SendErr.sendOperationFailed eventName error)) ∈
        (onError eventName error (finalSender ids abortIds es)).settlements) ∧
    stepSender (finalSender ids abortIds es) (SenderEvent.linkOrSessionError eventName error) =
      onError eventName error (finalSender ids abortIds es) ∧
    (∀ o : AwaitableSenderCtorOptions,
      (senderErrorDrainInstalled o = true ↔ o.onError = false) ∧
      (sessionErrorDrainInstalled o = true ↔ o.onSessionError = false)) := by
  have hinv : SenderInv ids abortIds (finalSender ids abortIds es) :=
    runSender_inv es (initSender ids abortIds) (initSender_inv hids habort)
  have hinv2 : SenderInv ids abortIds (onError eventName error (finalSender ids abortIds es)) :=
    onError_inv eventName error hinv
  have hm : (onError eventName error (finalSender ids abortIds es)).deliveryDispositionMap
      = [] := by
    rw [List.eq_nil_iff_forall_not_mem]
    intro i hi
    have h1 : i ∈ (finalSender ids abortIds es).deliveryDispositionMap :=
      foldl_onSendFailure_map_sub eventName error
        (finalSender ids abortIds es).deliveryDispositionMap _ i hi
    exact foldl_onSendFailure_not_mem eventName error
      (finalSender ids abortIds es).deliveryDispositionMap _ hinv.mapNodup i h1 hi
  refine ⟨hm, by rw [hinv2.timersEq, hm], ?_, rfl, ?_⟩
  · intro i hi
    exact foldl_onSendFailure_settles eventName error
      (finalSender ids abortIds es).deliveryDispositionMap
      (finalSender ids abortIds es) hinv.mapNodup (fun j hj => hj) i hi
  · intro o
    obtain ⟨oe, ose⟩ := o
    cases oe <;> cases ose <;> exact (by decide)

/-- Witness for the C4 theorem at a concrete batch of pending sends. -/
theorem bulk_error_drain_witness :
    ([0, 1] : List Nat).Nodup ∧ ([] : List Nat).Nodup ∧
    ((onError "sender_error" (some "boom") (finalSender [0, 1] [] [])).deliveryDispositionMap
        = [] ∧
    (onError "sender_error" (some "boom") (finalSender [0, 1] [] [])).armedTimers = [] ∧
    (∀ i ∈ (finalSender [0, 1] [] []).deliveryDispositionMap,
      (i, MSettlement.rejectedSend (SendErr.sendOperationFailed "sender_error" (some "boom"))) ∈
        (onError "sender_error" (some "boom") (finalSender [0, 1] [] [])).settlements) ∧
    stepSender (finalSender [0, 1] [] [])
        (SenderEvent.linkOrSessionError "sender_error" (some "boom")) =
      onError "sender_error" (some "boom") (finalSender [0, 1] [] []) ∧
    (∀ o : AwaitableSenderCtorOptions,
      (senderErrorDrainInstalled o = true ↔ o.onError = false) ∧
      (sessionErrorDrainInstalled o = true ↔ o.onSessionError = false))) :=
  ⟨by decide, by decide,
    bulk_error_drain [0, 1] [] [] "sender_error" (some "boom") (by decide) (by decide)⟩

/-- Claim C3, counterexample: with the default sender timeout of 20
seconds and a per-call timeout of 5 seconds, the code starts a 5 second
timer, while max of the per-call timeout and the default is 20; so the
claim that the timer duration is the max of the two is false on the code. -/
theorem send_timer_not_max :
    (awaitableSenderSend (awaitableSenderDefaultTimeout none) true
        (some ⟨some 5, none⟩)).timerDurationSeconds = some 5 ∧
    specMaxTimerDuration 5 (awaitableSenderDefaultTimeout none) = 20 ∧
    ((5 : Int) ≠ 20) := by
  decide

/-- Claim C3 (amended): for every send that issues a protocol-level send
(signal not already aborted, sender sendable), the timer duration equals
the per-call timeout whenever that is supplied and positive, even when it
is smaller than the sender default, and equals the sender default
otherwise. -/
theorem send_timer_duration_override (d : Int) (perCall : Option Int) (sig : Option Bool)
    (hsig : sig ≠ some true) :
    (awaitableSenderSend d true (some ⟨perCall, sig⟩)).protocolSendIssued = true ∧
    (awaitableSenderSend d true (some ⟨perCall, sig⟩)).timerStarted = true ∧
    (awaitableSenderSend d true (some ⟨perCall, sig⟩)).timerDurationSeconds =
      some (match perCall with
        | some t => if 0 < t then t else d
        | none => d) ∧
    (∀ t : Int, perCall = some t → 0 < t →
      (awaitableSenderSend d true (some ⟨perCall, sig⟩)).timerDurationSeconds = some t) := by
  rcases sig with _ | b
  · refine ⟨rfl, rfl, rfl, ?_⟩
    intro t ht hpos
    subst ht
    simp [awaitableSenderSend, hpos]
  · cases b
    · refine ⟨rfl, rfl, rfl, ?_⟩
      intro t ht hpos
      subst ht
      simp [awaitableSenderSend, hpos]
    · exact absurd rfl hsig

/-- Witness for the C3 theorem at the default timeout and a small positive
per-call timeout. -/
theorem send_timer_duration_override_witness :
    ((none : Option Bool) ≠ some true) ∧
    ((awaitableSenderSend 20 true (some ⟨some 5, none⟩)).protocolSendIssued = true ∧
    (awaitableSenderSend 20 true (some ⟨some 5, none⟩)).timerStarted = true ∧
    (awaitableSenderSend 20 true (some ⟨some 5, none⟩)).timerDurationSeconds =
      some (match some (5 : Int) with
        | some t => if 0 < t then t else (20 : Int)
        | none => (20 : Int)) ∧
    (∀ t : Int, some (5 : Int) = some t → 0 < t →
      (awaitableSenderSend 20 true (some ⟨some 5, none⟩)).timerDurationSeconds = some t)) :=
  ⟨by decide, send_timer_duration_override 20 (some 5) none (by decide)⟩

theorem pendingDisconnectedListeners_eq (base k : Nat) :
    pendingDisconnectedListeners base k = base + k := by
  induction k with
  | zero => rfl
  | succ k ih =>
      have h1 : (sessionClose true none).connDisconnectedListenersAdded = 1 := rfl
      show pendingDisconnectedListeners base k +
        (sessionClose true none).connDisconnectedListenersAdded = base + (k + 1)
      rw [ih, h1]
      omega

/-- Claim C5 (code bug evidence): each pending Session.close, and likewise
each pending Connection.createSession, registers its own listener for the
disconnected event on the underlying rhea connection, so k concurrently
pending close operations leave base plus k listeners registered - the
count grows linearly with the pending operations (1000 extra listeners for
the 1000 parallel closes of the session spec test) instead of staying at
one shared listener with an audience map, as the test in the repository
asserts. -/
theorem disconnected_listener_per_pending_close :
    (sessionClose true none).connDisconnectedListenersAdded = 1 ∧
    (connectionCreateSession none).connDisconnectedListenersAdded = 1 ∧
    (∀ base k : Nat, pendingDisconnectedListeners base k = base + k) ∧
    pendingDisconnectedListeners 0 1000 = 1000 ∧
    pendingDisconnectedListeners 0 1000 ≠ 0 := by
  refine ⟨rfl, rfl, pendingDisconnectedListeners_eq, ?_, ?_⟩
  · rw [pendingDisconnectedListeners_eq]
  · rw [pendingDisconnectedListeners_eq]
    omega

theorem runConnectionClose_inactive :
    ∀ (es : List CloseOpEvent) (s : CloseOpState), s.listenersActive = false →
      runConnectionClose s es = s := by
  intro es
  induction es with
  | nil => intro s _; rfl
  | cons e es ih =>
      intro s h
      show runConnectionClose (stepConnectionClose s e) es = s
      have hs : stepConnectionClose s e = s := by
        simp [stepConnectionClose, h]
      rw [hs]
      exact ih s h

theorem runSessionClose_inactive :
    ∀ (es : List CloseOpEvent) (s : CloseOpState), s.listenersActive = false →
      runSessionClose s es = s := by
  intro es
  induction es with
  | nil => intro s _; rfl
  | cons e es ih =>
      intro s h
      show runSessionClose (stepSessionClose s e) es = s
      have hs : stepSessionClose s e = s := by
        simp [stepSessionClose, h]
      rw [hs]
      exact ih s h

/-- Claim C6, counterexample: when the disconnected event is the first
event a pending Connection.close observes, the handler removes the
listeners and logs but performs no settlement, and every later event,
including the close event itself, is ignored - the close promise is never
resolved; so the claim that the close still resolves is false on the
code. -/
theorem close_disconnect_first_not_resolved :
    runConnectionClose closeOpStart
        [CloseOpEvent.disconnectedEvt, CloseOpEvent.closeEvt] =
      { listenersActive := false, settlements := [] } ∧
    CloseSettle.resolvedClose ∉
      (runConnectionClose closeOpStart
        [CloseOpEvent.disconnectedEvt, CloseOpEvent.closeEvt]).settlements := by
  decide

/-- Claim C6 (amended): when a disconnected event is the first event
observed by a pending Connection.close or Session.close, the disconnect is
logged and all listeners and the timer are removed, but the close promise
is never settled - it neither resolves nor rejects, whatever happens
afterwards; a close event observed first does resolve the promise. -/
theorem close_disconnect_first_never_settles (es : List CloseOpEvent) :
    (runConnectionClose closeOpStart (CloseOpEvent.disconnectedEvt :: es)).settlements = [] ∧
    (runConnectionClose closeOpStart
        (CloseOpEvent.disconnectedEvt :: es)).listenersActive = false ∧
    (runSessionClose closeOpStart (CloseOpEvent.disconnectedEvt :: es)).settlements = [] ∧
    (runSessionClose closeOpStart
        (CloseOpEvent.disconnectedEvt :: es)).listenersActive = false ∧
    (runConnectionClose closeOpStart (CloseOpEvent.closeEvt :: es)).settlements =
      [CloseSettle.resolvedClose] ∧
    (runSessionClose closeOpStart (CloseOpEvent.closeEvt :: es)).settlements =
      [CloseSettle.resolvedClose] := by
  have hc1 : runConnectionClose closeOpStart (CloseOpEvent.disconnectedEvt :: es) =
      { listenersActive := false, settlements := [] } := by
    show runConnectionClose (stepConnectionClose closeOpStart CloseOpEvent.disconnectedEvt)
      es = _
    exact runConnectionClose_inactive es _ rfl
  have hs1 : runSessionClose closeOpStart (CloseOpEvent.disconnectedEvt :: es) =
      { listenersActive := false, settlements := [] } := by
    show runSessionClose (stepSessionClose closeOpStart CloseOpEvent.disconnectedEvt) es = _
    exact runSessionClose_inactive es _ rfl
  have hc2 : runConnectionClose closeOpStart (CloseOpEvent.closeEvt :: es) =
      { listenersActive := false, settlements := [CloseSettle.resolvedClose] } := by
    show runConnectionClose (stepConnectionClose closeOpStart CloseOpEvent.closeEvt) es = _
    exact runConnectionClose_inactive es _ rfl
  have hs2 : runSessionClose closeOpStart (CloseOpEvent.closeEvt :: es) =
      { listenersActive := false, settlements := [CloseSettle.resolvedClose] } := by
    show runSessionClose (stepSessionClose closeOpStart CloseOpEvent.closeEvt) es = _
    exact runSessionClose_inactive es _ rfl
  rw [hc1, hs1, hc2, hs2]
  exact ⟨rfl, rfl, rfl, rfl, rfl, rfl⟩

/-- Claim C7, counterexample: Connection.open supplied with an already
aborted signal does settle immediately with the abort error, but only
after registering its three completion listeners and issuing the
protocol-level connect; so the claim that the operation settles without
registering any event listeners is false on the code. -/
theorem aborted_open_registers_listeners :
    (connectionOpen false (some true)).completionListenersAdded = 3 ∧
    (connectionOpen false (some true)).protocolActionIssued = true ∧
    (connectionOpen false (some true)).settledNow =
      some ImmediateOutcome.rejectedAbortError := by
  decide

/-- Claim C7 (amended): with an already aborted cancellation token, send
rejects immediately before any listener registration, timer or protocol
send; the other guarded operations (open, close, createSession, close of a
session, createSender and createAwaitableSender via the shared
_createSender body, createReceiver) first register their completion
listeners, start the timer and issue the protocol action, then
synchronously run the abort path, which removes the listeners, clears the
timer and rejects with the abort error - they settle immediately but
transiently register listeners and do issue the protocol action. -/
theorem aborted_token_immediate_settlement :
    (∀ (d : Int) (st : Bool) (tOpt : Option Int),
      awaitableSenderSend d st (some ⟨tOpt, some true⟩) =
        ⟨some ImmediateOutcome.rejectedAbortError, false, false, none, false, false⟩) ∧
    connectionOpen false (some true) =
      ⟨some ImmediateOutcome.rejectedAbortError, true, true, 3, 0, 1, true, false, false⟩ ∧
    connectionClose true (some true) =
      ⟨some ImmediateOutcome.rejectedAbortError, true, false, 3, 0, 1, true, false, false⟩ ∧
    connectionCreateSession (some true) =
      ⟨some ImmediateOutcome.rejectedAbortError, true, true, 3, 0, 1, true, false, false⟩ ∧
    sessionClose true (some true) =
      ⟨some ImmediateOutcome.rejectedAbortError, true, false, 3, 0, 1, true, false, false⟩ ∧
    sessionCreateSender (some true) =
      ⟨some ImmediateOutcome.rejectedAbortError, true, true, 3, 0, 1, true, false, false⟩ ∧
    sessionCreateReceiver (some ⟨true, true, none, some true⟩) =
      ⟨some ImmediateOutcome.rejectedAbortError, true, true, 3, 0, 1, true, false, false⟩ := by
  exact ⟨fun d st tOpt => rfl, by decide, by decide, by decide, by decide, by decide, by decide⟩

/-- Claim C8: createReceiver called with exactly one of the onMessage and
onError handlers and a credit window distinct from zero rejects
synchronously with the configuration error, before any protocol-level
attach, listener registration or timer. -/
theorem createReceiver_config_guard (o : ReceiverOptions)
    (hx : ((o.onMessage && !o.onError) || (o.onError && !o.onMessage)) = true)
    (hcw : o.credit_window ≠ some 0) :
    (sessionCreateReceiver (some o)).settledNow = some ImmediateOutcome.rejectedConfigError ∧
    (sessionCreateReceiver (some o)).protocolActionIssued = false ∧
    (sessionCreateReceiver (some o)).completionListenersAdded = 0 ∧
    (sessionCreateReceiver (some o)).timerStarted = false := by
  have h : sessionCreateReceiver (some o) =
      settleNow ImmediateOutcome.rejectedConfigError emptyGuardRecord := by
    show (if (o.onMessage && !o.onError || o.onError && !o.onMessage) = true then
        if o.credit_window ≠ some 0 then
          settleNow ImmediateOutcome.rejectedConfigError emptyGuardRecord
        else sessionCreateReceiverRest o.abortSignal
      else sessionCreateReceiverRest o.abortSignal) =
      settleNow ImmediateOutcome.rejectedConfigError emptyGuardRecord
    rw [if_pos hx, if_pos hcw]
  rw [h]
  exact ⟨rfl, rfl, rfl, rfl⟩

/-- Witness for the C8 theorem with only onMessage supplied and the
default credit window. -/
theorem createReceiver_config_guard_witness :
    ((((⟨true, false, none, none⟩ : ReceiverOptions).onMessage &&
        !(⟨true, false, none, none⟩ : ReceiverOptions).onError) ||
      ((⟨true, false, none, none⟩ : ReceiverOptions).onError &&
        !(⟨true, false, none, none⟩ : ReceiverOptions).onMessage)) = true) ∧
    ((⟨true, false, none, none⟩ : ReceiverOptions).credit_window ≠ some 0) ∧
    ((sessionCreateReceiver (some ⟨true, false, none, none⟩)).settledNow =
        some ImmediateOutcome.rejectedConfigError ∧
      (sessionCreateReceiver (some ⟨true, false, none, none⟩)).protocolActionIssued = false ∧
      (sessionCreateReceiver (some ⟨true, false, none, none⟩)).completionListenersAdded = 0 ∧
      (sessionCreateReceiver (some ⟨true, false, none, none⟩)).timerStarted = false) :=
  ⟨by decide, by decide,
    createReceiver_config_guard ⟨true, false, none, none⟩ (by decide) (by decide)⟩

theorem startsWithSeq_iff (needle : List Char) : ∀ hay : List Char,
    startsWithSeq hay needle = true ↔ ∃ post, hay = needle ++ post := by
  induction needle with
  | nil =>
      intro hay
      simp [startsWithSeq]
  | cons b bs ih =>
      intro hay
      cases hay with
      | nil => simp [startsWithSeq]
      | cons a as =>
          show (if a = b then startsWithSeq as bs else false) = true ↔ _
          by_cases hab : a = b
          · subst hab
            rw [if_pos rfl, ih as]
            constructor
            · rintro ⟨post, hp⟩
              exact ⟨post, by simp [hp]⟩
            · rintro ⟨post, hp⟩
              rw [List.cons_append, List.cons.injEq] at hp
              exact ⟨post, hp.2⟩
          · rw [if_neg hab]
            constructor
            · intro h
              cases h
            · rintro ⟨post, hp⟩
              rw [List.cons_append, List.cons.injEq] at hp
              exact absurd hp.1 hab

theorem containsSeq_iff (needle : List Char) : ∀ hay : List Char,
    containsSeq hay needle = true ↔ ∃ pre post, hay = pre ++ needle ++ post := by
  intro hay
  induction hay with
  | nil =>
      cases needle with
      | nil =>
          constructor
          · intro _
            exact ⟨[], [], rfl⟩
          · intro _
            rfl
      | cons c cs =>
          constructor
          · intro h
            cases h
          · rintro ⟨pre, post, hp⟩
            exact absurd hp.symm (by simp)
  | cons a as ih =>
      show (startsWithSeq (a :: as) needle || containsSeq as needle) = true ↔ _
      rw [Bool.or_eq_true, startsWithSeq_iff needle (a :: as), ih]
      constructor
      · rintro (⟨post, hp⟩ | ⟨pre, post, hp⟩)
        · exact ⟨[], post, by simpa using hp⟩
        · exact ⟨a :: pre, post, by simp [hp]⟩
      · rintro ⟨pre, post, hp⟩
        cases pre with
        | nil => exact Or.inl ⟨post, by simpa using hp⟩
        | cons x xs =>
            rw [List.cons_append, List.cons_append, List.cons.injEq] at hp
            exact Or.inr ⟨xs, post, hp.2⟩

/-- Claim C9: the re-emission of a protocol event is deferred by one
scheduling tick exactly when the event name contains the string error and
the actionInitiated counter of the emitter is greater than zero, and is
synchronous otherwise; illustrated on the concrete rhea event names. -/
theorem emitEvent_error_deferral :
    (∀ (eventName : String) (actionInitiated : Int),
      emitEventSchedule eventName actionInitiated = EmitMode.deferredOneTick ↔
        ((∃ pre post, eventName.toList = pre ++ "error".toList ++ post) ∧
          0 < actionInitiated)) ∧
    emitEventSchedule "sender_error" 1 = EmitMode.deferredOneTick ∧
    emitEventSchedule "session_error" 1 = EmitMode.deferredOneTick ∧
    emitEventSchedule "sender_close" 1 = EmitMode.immediate ∧
    emitEventSchedule "sender_error" 0 = EmitMode.immediate := by
  refine ⟨?_, by decide, by decide, by decide, by decide⟩
  intro eventName n
  unfold emitEventSchedule
  by_cases hc : nameContainsError eventName = true ∧ 0 < n
  · rw [if_pos hc]
    exact ⟨fun _ => ⟨(containsSeq_iff "error".toList eventName.toList).mp hc.1, hc.2⟩,
      fun _ => rfl⟩
  · rw [if_neg hc]
    constructor
    · intro he
      cases he
    · rintro ⟨hex, hn⟩
      exact absurd ⟨(containsSeq_iff "error".toList eventName.toList).mpr hex, hn⟩ hc

/-- Claim C10: Connection.open on an already open connection resolves
immediately with the connection itself, with no listener registration, no
timer and no protocol-level connect; Connection.close and Session.close on
a not-open object resolve immediately with no listeners, no timer and no
protocol-level close. -/
theorem open_close_fast_paths (sig : Option Bool) :
    (connectionOpen true sig).settledNow = some ImmediateOutcome.resolvedSelf ∧
    (connectionOpen true sig).protocolActionIssued = false ∧
    (connectionOpen true sig).completionListenersAdded = 0 ∧
    (connectionOpen true sig).timerStarted = false ∧
    (connectionClose false sig).settledNow = some ImmediateOutcome.resolvedVoid ∧
    (connectionClose false sig).protocolActionIssued = false ∧
    (connectionClose false sig).completionListenersAdded = 0 ∧
    (connectionClose false sig).timerStarted = false ∧
    (sessionClose false sig).settledNow = some ImmediateOutcome.resolvedVoid ∧
    (sessionClose false sig).protocolActionIssued = false := by
  exact ⟨rfl, rfl, rfl, rfl, rfl, rfl, rfl, rfl, rfl, rfl⟩

end RheaPromise
